import Mathlib

set_option maxRecDepth 8000

/-!
Verification of the theme-to-collection resolution pipeline of the
program-director repository (src/program_director/agent.py, cli.py,
ersatztv_client.py).  Strings are modelled as `List Char`; Python's
`json.loads` is modelled by an executable recursive-descent parser
(JSON numbers are modelled as integers, the only numeric field in the
schema being an integral minute count); pydantic validation of
`PlaylistSuggestion` is modelled field by field; the ErsatzTV remote
service is modelled as explicit state, with every call recording its
read and write effects.
-/

/-- The `\x7b` character, written via its code point. -/
def lbrace : Char := Char.ofNat 123

/-- The `\x7d` character, written via its code point. -/
def rbrace : Char := Char.ofNat 125

/-! ### Python-style string helpers on `List Char` -/

/-- Whether `p` is an initial segment of `s` (used to model Python's
substring tests). -/
def isPre : List Char → List Char → Bool
  | [], _ => true
  | _ :: _, [] => false
  | a :: as, b :: bs => a = b && isPre as bs

/-- Python's `sep in s` substring test. -/
def hasSub (sep : List Char) : List Char → Bool
  | [] => isPre sep []
  | c :: rest => isPre sep (c :: rest) || hasSub sep rest

/-- Python's `s.split(sep)[0]`: the characters before the first
occurrence of `sep` (all of `s` when `sep` does not occur). -/
def takeBefore (sep : List Char) : List Char → List Char
  | [] => []
  | c :: rest => if isPre sep (c :: rest) then [] else c :: takeBefore sep rest

/-- Index of the first occurrence of `t`, if any (`str.find` without the
`-1` encoding). -/
def findChar : List Char → Char → Option Nat
  | [], _ => none
  | c :: rest, t => if c = t then some 0 else (findChar rest t).map (· + 1)

/-- Index of the last occurrence of `t`, if any (`str.rfind` without the
`-1` encoding). -/
def rfindChar : List Char → Char → Option Nat
  | [], _ => none
  | c :: rest, t =>
    match rfindChar rest t with
    | some i => some (i + 1)
    | none => if c = t then some 0 else none

/-- Python's `content.find(t)`: first index, or `-1`. -/
def pyFind (content : List Char) (t : Char) : Int :=
  match findChar content t with
  | some i => (i : Int)
  | none => -1

/-- Python's `content.rfind(t)`: last index, or `-1`. -/
def pyRfind (content : List Char) (t : Char) : Int :=
  match rfindChar content t with
  | some i => (i : Int)
  | none => -1

/-- Python's slice `content[a:b]` for `0 ≤ a ≤ b`. -/
def pySlice (content : List Char) (a b : Nat) : List Char :=
  (content.drop a).take (b - a)

/-- Python's `s.replace(q, bsq)` where `q` is the double quote: each
quote becomes a backslash followed by a quote
(agent.py line 137/142/147). -/
def escapeQuotes : List Char → List Char
  | [] => []
  | c :: rest => if c = '"' then '\\' :: '"' :: escapeQuotes rest else c :: escapeQuotes rest

/-- Python's `sep.join xs`. -/
def joinSep (sep : List Char) : List (List Char) → List Char
  | [] => []
  | [x] => x
  | x :: y :: rest => x ++ sep ++ joinSep sep (y :: rest)

/-! ### JSON values and a model of `json.loads` -/

/-- JSON values as produced by `json.loads`; objects keep their key/value
pairs in encounter order and are read through a last-occurrence-wins
lookup, matching the Python dict that `json.loads` builds. -/
inductive Json where
  | null
  | bool (b : Bool)
  | num (n : Int)
  | str (s : List Char)
  | arr (elems : List Json)
  | obj (fields : List (List Char × Json))

/-- JSON inter-token whitespace accepted by `json.loads`. -/
def isJsonWs (c : Char) : Bool :=
  c = ' ' || c = '\t' || c = '\n' || c = '\r'

/-- Skip inter-token whitespace. -/
def skipWs (s : List Char) : List Char := s.dropWhile isJsonWs

/-- Numeric value of a hex digit, if it is one. -/
def hexVal (c : Char) : Option Nat :=
  if '0' ≤ c ∧ c ≤ '9' then some (c.toNat - 48)
  else if 'a' ≤ c ∧ c ≤ 'f' then some (c.toNat - 87)
  else if 'A' ≤ c ∧ c ≤ 'F' then some (c.toNat - 70)
  else none

/-- Decode a JSON string body (the characters after the opening quote),
returning the decoded characters and the remaining input after the
closing quote.  Fuel-driven so that it evaluates in the kernel. -/
def parseStrBody : Nat → List Char → Option (List Char × List Char)
  | 0, _ => none
  | _ + 1, [] => none
  | fuel + 1, c :: rest =>
    if c = '"' then some ([], rest)
    else if c = '\\' then
      match rest with
      | [] => none
      | e :: rest2 =>
        if e = 'u' then
          match rest2 with
          | h1 :: h2 :: h3 :: h4 :: rest3 =>
            match hexVal h1, hexVal h2, hexVal h3, hexVal h4 with
            | some a, some b, some c2, some d =>
              (parseStrBody fuel rest3).map
                (fun p => (Char.ofNat (((a * 16 + b) * 16 + c2) * 16 + d) :: p.1, p.2))
            | _, _, _, _ => none
          | _ => none
        else
          match (if e = '"' then some '"'
                 else if e = '\\' then some '\\'
                 else if e = '/' then some '/'
                 else if e = 'b' then some (Char.ofNat 8)
                 else if e = 'f' then some (Char.ofNat 12)
                 else if e = 'n' then some '\n'
                 else if e = 'r' then some '\r'
                 else if e = 't' then some '\t'
                 else none) with
          | some d => (parseStrBody fuel rest2).map (fun p => (d :: p.1, p.2))
          | none => none
    else if c.toNat < 32 then none
    else (parseStrBody fuel rest).map (fun p => (c :: p.1, p.2))

/-- Value of a digit string. -/
def digitsToNat (ds : List Char) : Nat :=
  ds.foldl (fun a c => a * 10 + (c.toNat - 48)) 0

/-- Parse a JSON integer (optional minus, no leading zeros).  Fractional
and exponent forms are not modelled. -/
def parseNum (s : List Char) : Option (Int × List Char) :=
  let p : Bool × List Char :=
    match s with
    | c :: rest => if c = '-' then (true, rest) else (false, s)
    | [] => (false, s)
  match p.2 with
  | [] => none
  | d :: rest =>
    if d.isDigit then
      let ds : List Char × List Char :=
        if d = '0' then ([], rest) else (rest.takeWhile Char.isDigit, rest.dropWhile Char.isDigit)
      let n : Nat := digitsToNat (d :: ds.1)
      some (if p.1 then -(n : Int) else (n : Int), ds.2)
    else none

mutual

/-- Parse one JSON value, returning it and the remaining input. -/
def parseVal : Nat → List Char → Option (Json × List Char)
  | 0, _ => none
  | fuel + 1, s =>
    match skipWs s with
    | [] => none
    | c :: rest =>
      if c = lbrace then
        (parseMembers fuel true rest).map (fun p => (Json.obj p.1, p.2))
      else if c = '[' then
        (parseElems fuel true rest).map (fun p => (Json.arr p.1, p.2))
      else if c = '"' then
        (parseStrBody (rest.length + 1) rest).map (fun p => (Json.str p.1, p.2))
      else if c = 't' then
        match rest with
        | 'r' :: 'u' :: 'e' :: r => some (Json.bool true, r)
        | _ => none
      else if c = 'f' then
        match rest with
        | 'a' :: 'l' :: 's' :: 'e' :: r => some (Json.bool false, r)
        | _ => none
      else if c = 'n' then
        match rest with
        | 'u' :: 'l' :: 'l' :: r => some (Json.null, r)
        | _ => none
      else
        (parseNum (c :: rest)).map (fun p => (Json.num p.1, p.2))

/-- Parse the members of an object after the opening brace; `first` is
false after a comma, where a further member is mandatory. -/
def parseMembers : Nat → Bool → List Char → Option (List (List Char × Json) × List Char)
  | 0, _, _ => none
  | fuel + 1, first, s =>
    match skipWs s with
    | [] => none
    | c :: rest =>
      if first ∧ c = rbrace then some ([], rest)
      else if c = '"' then
        match parseStrBody (rest.length + 1) rest with
        | none => none
        | some (key, r1) =>
          match skipWs r1 with
          | ':' :: r2 =>
            match parseVal fuel r2 with
            | none => none
            | some (v, r3) =>
              match skipWs r3 with
              | ',' :: r4 =>
                (parseMembers fuel false r4).map (fun p => ((key, v) :: p.1, p.2))
              | d :: r5 => if d = rbrace then some ([(key, v)], r5) else none
              | [] => none
          | _ => none
      else none

/-- Parse the elements of an array after the opening bracket; `first` is
false after a comma, where a further element is mandatory. -/
def parseElems : Nat → Bool → List Char → Option (List Json × List Char)
  | 0, _, _ => none
  | fuel + 1, first, s =>
    match skipWs s with
    | [] => none
    | c :: rest =>
      if first ∧ c = ']' then some ([], rest)
      else
        match parseVal fuel (c :: rest) with
        | none => none
        | some (v, r1) =>
          match skipWs r1 with
          | ',' :: r2 => (parseElems fuel false r2).map (fun p => (v :: p.1, p.2))
          | d :: r3 => if d = ']' then some ([v], r3) else none
          | [] => none

end

/-- Model of `json.loads`: parse one value and require only whitespace
after it. -/
def parseJsonText (s : List Char) : Option Json :=
  match parseVal (s.length + 1) s with
  | some (v, rest) => if skipWs rest = [] then some v else none
  | none => none

/-! ### The suggestion model and its pydantic validation
(agent.py lines 16-25) -/

/-- Suggested playlist from the LLM (`PlaylistSuggestion`, agent.py
lines 16-25).  `theme_name` and `collection_name` are declared without a
default and are therefore required; the remaining five fields carry the
defaults recorded in `validateSuggestion`. -/
structure PlaylistSuggestion where
  theme_name : List Char
  collection_name : List Char
  selected_movies : List (List Char)
  selected_shows : List (List Char)
  selected_anime : List (List Char)
  reasoning : List Char
  estimated_runtime : Int
deriving DecidableEq

/-- Lookup in the dict built by `json.loads`: on duplicate keys the last
occurrence wins. -/
def dictGet : List (List Char × Json) → List Char → Option Json
  | [], _ => none
  | (k, v) :: rest, key =>
    match dictGet rest key with
    | some w => some w
    | none => if k = key then some v else none

/-- Pydantic coercion to `str`: only a JSON string is accepted. -/
def asStr : Json → Option (List Char)
  | Json.str s => some s
  | _ => none

/-- All elements of a JSON array as strings, or failure. -/
def allStrings : List Json → Option (List (List Char))
  | [] => some []
  | v :: rest =>
    match asStr v, allStrings rest with
    | some s, some ss => some (s :: ss)
    | _, _ => none

/-- Pydantic coercion to `list[str]`. -/
def asStrList : Json → Option (List (List Char))
  | Json.arr xs => allStrings xs
  | _ => none

/-- Pydantic coercion to `int` (numeric-string coercion is not
modelled; no claim depends on it). -/
def asInt : Json → Option Int
  | Json.num n => some n
  | _ => none

/-- A required pydantic field: absent or non-coercible means a
validation error. -/
def reqField {α : Type} (fields : List (List Char × Json)) (key : List Char)
    (conv : Json → Option α) : Option α :=
  (dictGet fields key).bind conv

/-- An optional pydantic field: absent means the declared default,
present but non-coercible means a validation error. -/
def optField {α : Type} (fields : List (List Char × Json)) (key : List Char)
    (conv : Json → Option α) (dflt : α) : Option α :=
  match dictGet fields key with
  | none => some dflt
  | some v => conv v

def keyThemeName : List Char := "theme_name".toList
def keyCollectionName : List Char := "collection_name".toList
def keyMovies : List Char := "selected_movies".toList
def keyShows : List Char := "selected_shows".toList
def keyAnime : List Char := "selected_anime".toList
def keyReasoning : List Char := "reasoning".toList
def keyRuntime : List Char := "estimated_runtime".toList

/-- `PlaylistSuggestion(**data)`: fails on a non-object (the `**`
splat), requires `theme_name` and `collection_name`, defaults the title
lists to empty, `reasoning` to the empty string and `estimated_runtime`
to `0`, and ignores extra keys (pydantic's default `extra` behaviour). -/
def validateSuggestion : Json → Option PlaylistSuggestion
  | Json.obj fields =>
    match reqField fields keyThemeName asStr, reqField fields keyCollectionName asStr,
        optField fields keyMovies asStrList [], optField fields keyShows asStrList [],
        optField fields keyAnime asStrList [], optField fields keyReasoning asStr [],
        optField fields keyRuntime asInt 0 with
    | some tn, some cn, some mv, some sh, some an, some rs, some rt =>
      some { theme_name := tn, collection_name := cn, selected_movies := mv,
             selected_shows := sh, selected_anime := an, reasoning := rs,
             estimated_runtime := rt }
    | _, _, _, _, _, _, _ => none
  | _ => none

/-- `json.loads` followed by `PlaylistSuggestion(**data)`: the two
fallible steps of agent.py lines 118-119. -/
def decodeSuggestion (s : List Char) : Option PlaylistSuggestion :=
  (parseJsonText s).bind validateSuggestion

/-! ### The generation step (agent.py lines 79-125) -/

/-- Theme configuration (config.py lines 11-17). -/
structure ThemeConfig where
  name : List Char
  description : List Char
  duration : Int
  keywords : List (List Char)

/-- Outcome of `self.llm.invoke(messages)`: the call may raise, return a
non-string content, or return text.  The prompt built from the theme and
the catalog influences which outcome the model produces but not how the
outcome is subsequently processed. -/
inductive InvokeOutcome where
  | raises
  | nonText
  | text (content : List Char)

/-- The JSON extraction step of `generate_playlist` (agent.py lines
114-117): first `\x7b`, last `\x7d`, slice when the closing brace ends
after the opening one. -/
def extractJson (content : List Char) : Option (List Char) :=
  let json_start := pyFind content lbrace
  let json_end := pyRfind content rbrace + 1
  if json_start ≠ -1 ∧ json_end > json_start then
    some (pySlice content json_start.toNat json_end.toNat)
  else none

/-- `PlaylistAgent.generate_playlist` (agent.py lines 79-125) as a
function of the model-invocation outcome: every exception along the
invoke/decode/validate path is caught and surfaces as `none`. -/
def generate_playlist (_theme : ThemeConfig) (response : InvokeOutcome) :
    Option PlaylistSuggestion :=
  match response with
  | InvokeOutcome.raises => none
  | InvokeOutcome.nonText => none
  | InvokeOutcome.text content =>
    match extractJson content with
    | some json_str => decodeSuggestion json_str
    | none => none

/-! ### The smart-collection query (agent.py lines 127-150) -/

def sepParen : List Char := " (".toList

/-- The per-movie cleanup of agent.py line 136:
`title.split(" (")[0] if " (" in title else title`. -/
def cleanMovieTitle (title : List Char) : List Char :=
  if hasSub sepParen title then takeBefore sepParen title else title

/-- One `title contains "..."` condition (agent.py line 138). -/
def titleCond (escaped : List Char) : List Char :=
  "title contains \"".toList ++ escaped ++ ['"']

def orSep : List Char := " OR ".toList

/-- `PlaylistAgent.create_smart_collection_query` (agent.py lines
127-150): movie conditions (year stripped), then show conditions, then
anime conditions, all quote-escaped, joined with `" OR "`, the empty
string when no condition was produced. -/
def create_smart_collection_query (sg : PlaylistSuggestion) : List Char :=
  let conditions :=
    sg.selected_movies.map (fun title => titleCond (escapeQuotes (cleanMovieTitle title)))
    ++ sg.selected_shows.map (fun title => titleCond (escapeQuotes title))
    ++ sg.selected_anime.map (fun title => titleCond (escapeQuotes title))
  if conditions = [] then [] else joinSep orSep conditions

/-- The flattened title list of the spec: movies with the year suffix
stripped, then shows, then anime, order preserved. -/
def flattenedTitles (sg : PlaylistSuggestion) : List (List Char) :=
  sg.selected_movies.map cleanMovieTitle ++ sg.selected_shows ++ sg.selected_anime

/-! ### ErsatzTV remote state and `apply_playlist`
(ersatztv_client.py, agent.py lines 152-185) -/

/-- An ErsatzTV smart collection (ersatztv_client.py lines 17-23). -/
structure SmartCollection where
  id : Int
  name : List Char
  query : List Char
deriving DecidableEq

/-- The remote collection store: the list returned by
`get_smart_collections` plus the next server-assigned id. -/
structure ETVState where
  collections : List SmartCollection
  nextId : Int
deriving DecidableEq

/-- A remote write call issued by `apply_playlist`. -/
inductive RemoteWrite where
  | create (name query : List Char)
  | update (id : Int) (name query : List Char)
deriving DecidableEq

/-- The name argument of a remote write. -/
def writeName : RemoteWrite → List Char
  | RemoteWrite.create n _ => n
  | RemoteWrite.update _ n _ => n

/-- Result of one `apply_playlist` call: the returned boolean, the
remote state afterwards, the number of remote reads
(`get_smart_collections` calls) and the remote writes issued. -/
structure ApplyResult where
  ok : Bool
  state : ETVState
  reads : Nat
  writes : List RemoteWrite
deriving DecidableEq

/-- The dict comprehension `\x7bc.name: c.id for c in existing\x7d` read at
one key: on duplicate names the last collection wins. -/
def nameToId : List SmartCollection → List Char → Option Int
  | [], _ => none
  | c :: rest, n =>
    match nameToId rest n with
    | some i => some i
    | none => if c.name = n then some c.id else none

/-- `PlaylistAgent.apply_playlist` (agent.py lines 152-185).  `wOk`
models whether the remote write call succeeds (the client returns `None`
on a failed call, which `apply_playlist` reports as `False`); a failed
write leaves the modelled remote state unchanged.  The listing read is
modelled as always succeeding. -/
def apply_playlist (sg : PlaylistSuggestion) (wOk : Bool) (st : ETVState) : ApplyResult :=
  let query := create_smart_collection_query sg
  if query = [] then
    { ok := false, state := st, reads := 0, writes := [] }
  else
    let collection_name := sg.collection_name.take 50
    match nameToId st.collections collection_name with
    | some cid =>
      { ok := wOk
        state :=
          if wOk then
            { st with
              collections := st.collections.map
                (fun c => if c.id = cid then { c with name := collection_name, query := query } else c) }
          else st
        reads := 1
        writes := [RemoteWrite.update cid collection_name query] }
    | none =>
      { ok := wOk
        state :=
          if wOk then
            { st with
              collections := st.collections ++ [{ id := st.nextId, name := collection_name, query := query }]
              nextId := st.nextId + 1 }
          else st
        reads := 1
        writes := [RemoteWrite.create collection_name query] }

/-! ### Orchestration (agent.py lines 187-227) -/

/-- The per-theme result record of `generate_and_apply`. -/
structure ThemeResult where
  theme : List Char
  success : Bool
  suggestion : Option PlaylistSuggestion
  applied : Bool
deriving DecidableEq

/-- `PlaylistAgent.generate_and_apply` (agent.py lines 187-219):
`applied` is the `apply_playlist` boolean and `success` copies it. -/
def generate_and_apply (theme : ThemeConfig) (response : InvokeOutcome) (wOk : Bool)
    (st : ETVState) : ThemeResult × ETVState :=
  match generate_playlist theme response with
  | some sg =>
    let ar := apply_playlist sg wOk st
    ({ theme := theme.name, success := ar.ok, suggestion := some sg, applied := ar.ok }, ar.state)
  | none =>
    ({ theme := theme.name, success := false, suggestion := none, applied := false }, st)

/-- `PlaylistAgent.generate_all_themes` (agent.py lines 221-227): run
the single-theme flow for each configured theme in order, each theme
paired with its own model-invocation outcome and remote-write outcome,
threading the remote state. -/
def generate_all_themes :
    List (ThemeConfig × InvokeOutcome × Bool) → ETVState → List ThemeResult × ETVState
  | [], st => ([], st)
  | (t, o, w) :: rest, st =>
    let p := generate_and_apply t o w st
    let q := generate_all_themes rest p.2
    (p.1 :: q.1, q.2)

/-! ### Preview output (cli.py lines 222-242) -/

/-- `_print_suggestion` (cli.py lines 222-242): the strings passed to
`console.print`, in order. -/
def print_suggestion (sg : PlaylistSuggestion) : List (List Char) :=
  ["[bold blue]Custom Show:[/bold blue] ".toList ++ sg.collection_name]
  ++ (if sg.selected_movies ≠ [] then
        ("\n[bold]Movies (".toList ++ (toString sg.selected_movies.length).toList ++ "):[/bold]".toList)
        :: sg.selected_movies.map (fun t => "  - ".toList ++ t)
      else [])
  ++ (if sg.selected_shows ≠ [] then
        ("\n[bold]TV Shows (".toList ++ (toString sg.selected_shows.length).toList ++ "):[/bold]".toList)
        :: sg.selected_shows.map (fun t => "  - ".toList ++ t)
      else [])
  ++ (if sg.selected_anime ≠ [] then
        ("\n[bold]Anime (".toList ++ (toString sg.selected_anime.length).toList ++ "):[/bold]".toList)
        :: sg.selected_anime.map (fun t => "  - ".toList ++ t)
      else [])
  ++ ["\n[italic]".toList ++ sg.reasoning ++ "[/italic]".toList]
  ++ ["[dim]Estimated runtime: ".toList ++ (toString sg.estimated_runtime).toList ++ " minutes[/dim]".toList]

/-! ### Spec-side notions used to state the claims -/

/-- A well-formed JSON object text: it parses as a JSON object and is
brace-delimited (an object literal starts with `\x7b` and ends with
`\x7d`). -/
def isJsonObjText (s : List Char) : Bool :=
  (match parseJsonText s with
   | some (Json.obj _) => true
   | _ => false)
  && (s.head? == some lbrace) && (s.getLast? == some rbrace)

/-- All contiguous substrings (with multiplicity). -/
def subLists (l : List Char) : List (List Char) :=
  (l.tails.map (fun t => t.inits)).flatten

/-- How many substrings of `l` are well-formed JSON object texts. -/
def objSubstringCount (l : List Char) : Nat :=
  (subLists l).countP (fun s => isJsonObjText s)


/-! ### Concrete instances used by the claim theorems -/

/-- The `"Action"` theme of the end-to-end scenario. -/
def thAction : ThemeConfig :=
  { name := "Action".toList, description := "High-octane evening".toList,
    duration := 120, keywords := [] }

/-- An initially empty remote collection set. -/
def emptyETV : ETVState := { collections := [], nextId := 0 }

/-- A minimal validating JSON object text. -/
def c1obj : List Char := "\x7b\"theme_name\":\"t\",\"collection_name\":\"c\"\x7d".toList

/-- Raw model text containing exactly one well-formed JSON object,
preceded by text that itself contains a stray opening brace. -/
def c1raw : List Char := "a\x7b".toList ++ c1obj

/-- The spec scenario model response, which omits `theme_name`. -/
def c4text : List Char :=
  "\x7b\"collection_name\":\"Action Night\",\"selected_movies\":[\"Mad Max (1980)\"]\x7d".toList

/-- The spec scenario model response with the required `theme_name`. -/
def c4textFull : List Char :=
  "\x7b\"theme_name\":\"Action\",\"collection_name\":\"Action Night\",\"selected_movies\":[\"Mad Max (1980)\"]\x7d".toList

/-- The suggestion validated from `c4textFull`. -/
def c4suggestion : PlaylistSuggestion :=
  { theme_name := "Action".toList, collection_name := "Action Night".toList,
    selected_movies := ["Mad Max (1980)".toList], selected_shows := [],
    selected_anime := [], reasoning := [], estimated_runtime := 0 }

/-- A valid JSON object that omits the required `collection_name`. -/
def c5text : List Char := "\x7b\"theme_name\":\"t\"\x7d".toList

/-- A suggestion with one selected movie. -/
def c3sg : PlaylistSuggestion :=
  { theme_name := "t".toList, collection_name := "c".toList,
    selected_movies := ["M".toList], selected_shows := [], selected_anime := [],
    reasoning := [], estimated_runtime := 0 }

/-- A suggestion whose collection name has 62 characters. -/
def c7sg : PlaylistSuggestion :=
  { theme_name := "t".toList,
    collection_name := "012345678901234567890123456789012345678901234567890123456789ab".toList,
    selected_movies := ["M".toList], selected_shows := [], selected_anime := [],
    reasoning := [], estimated_runtime := 0 }

/-- A suggestion with all three title lists empty. -/
def c9sg : PlaylistSuggestion :=
  { theme_name := "t".toList, collection_name := "c".toList, selected_movies := [],
    selected_shows := [], selected_anime := [], reasoning := [], estimated_runtime := 0 }

/-- A one-theme batch whose model invocation raises. -/
def c8inputs : List (ThemeConfig × InvokeOutcome × Bool) :=
  [(thAction, InvokeOutcome.raises, true)]

/-- The result record the failed theme of `c8inputs` degrades to. -/
def c8record : ThemeResult :=
  { theme := thAction.name, success := false, suggestion := none, applied := false }

/-- An object carrying both required fields, one populated title list,
and omitting the other four defaulted fields. -/
def c5partialFields : List (List Char × Json) :=
  [(keyThemeName, Json.str "t".toList), (keyCollectionName, Json.str "c".toList),
   (keyMovies, Json.arr [Json.str "M".toList])]

/-- The suggestion validated from `c5partialFields`. -/
def c5partialSg : PlaylistSuggestion :=
  { theme_name := "t".toList, collection_name := "c".toList,
    selected_movies := ["M".toList], selected_shows := [], selected_anime := [],
    reasoning := [], estimated_runtime := 0 }

/-- An object with both required fields, an unknown extra key, and all
five defaulted fields omitted. -/
def c5extraFields : List (List Char × Json) :=
  [(keyThemeName, Json.str "t".toList), (keyCollectionName, Json.str "c".toList),
   ("zzz".toList, Json.num 3)]

/-! ### Helper lemmas -/

theorem findChar_eq_none_of_not_mem (l : List Char) (t : Char) (h : t ∉ l) :
    findChar l t = none := by
  induction l with
  | nil => rfl
  | cons c rest ih =>
    have hc : ¬ c = t := fun he => h (he ▸ List.mem_cons_self c rest)
    have hr : t ∉ rest := fun hm => h (List.mem_cons_of_mem c hm)
    simp [findChar, hc, ih hr]

theorem rfindChar_eq_none_of_not_mem (l : List Char) (t : Char) (h : t ∉ l) :
    rfindChar l t = none := by
  induction l with
  | nil => rfl
  | cons c rest ih =>
    have hc : ¬ c = t := fun he => h (he ▸ List.mem_cons_self c rest)
    have hr : t ∉ rest := fun hm => h (List.mem_cons_of_mem c hm)
    simp [rfindChar, hc, ih hr]

theorem findChar_append_head (pre rest2 : List Char) (t : Char) (h : t ∉ pre) :
    findChar (pre ++ t :: rest2) t = some pre.length := by
  induction pre with
  | nil => simp [findChar]
  | cons c cs ih =>
    have hc : ¬ c = t := fun he => h (he ▸ List.mem_cons_self c cs)
    have hcs : t ∉ cs := fun hm => h (List.mem_cons_of_mem c hm)
    simp [findChar, hc, ih hcs]

theorem rfindChar_append_of_none (l1 l2 : List Char) (t : Char)
    (h : rfindChar l2 t = none) :
    rfindChar (l1 ++ l2) t = rfindChar l1 t := by
  induction l1 with
  | nil => simpa using h
  | cons c rest ih =>
    rw [List.cons_append]
    show (match rfindChar (rest ++ l2) t with
      | some i => some (i + 1)
      | none => if c = t then some 0 else none) = _
    rw [ih]
    rfl

theorem rfindChar_append_of_some (l1 l2 : List Char) (t : Char) (j : Nat)
    (h : rfindChar l2 t = some j) :
    rfindChar (l1 ++ l2) t = some (l1.length + j) := by
  induction l1 with
  | nil => simpa using h
  | cons c rest ih =>
    rw [List.cons_append]
    show (match rfindChar (rest ++ l2) t with
      | some i => some (i + 1)
      | none => if c = t then some 0 else none) = _
    rw [ih]
    simp only [List.length_cons, Option.some.injEq]
    omega

theorem rfindChar_concat (l : List Char) (t : Char) :
    rfindChar (l ++ [t]) t = some l.length := by
  have h1 : rfindChar [t] t = some 0 := by simp [rfindChar]
  simpa using rfindChar_append_of_some l [t] t 0 h1

/-- A list whose head is a character and whose last character is another
splits off its final element. -/
theorem eq_concat_of_getLast (l : List Char) (a : Char) (h : l.getLast? = some a) :
    l.dropLast ++ [a] = l :=
  List.dropLast_append_getLast? a h

/-- The brace-slicing step recovers exactly the embedded brace-delimited
body when the preceding text has no opening brace and the following text
has no closing brace. -/
theorem extractJson_delimited (pre body post : List Char)
    (hpre : lbrace ∉ pre) (hpost : rbrace ∉ post)
    (hhead : body.head? = some lbrace) (hlast : body.getLast? = some rbrace) :
    extractJson (pre ++ body ++ post) = some body := by
  obtain ⟨s2, hs2⟩ : ∃ s2, body = lbrace :: s2 := by
    cases body with
    | nil => cases hhead
    | cons c rest =>
      refine ⟨rest, ?_⟩
      simp only [List.head?_cons, Option.some.injEq] at hhead
      rw [hhead]
  have hbody_ne : body ≠ [] := by rw [hs2]; exact List.cons_ne_nil _ _
  have hs3 : body.dropLast ++ [rbrace] = body := eq_concat_of_getLast body rbrace hlast
  have hlen3 : body.length = body.dropLast.length + 1 := by
    conv =>
      lhs
      rw [← hs3]
    simp
  have hfind : findChar (pre ++ body ++ post) lbrace = some pre.length := by
    rw [List.append_assoc, hs2, List.cons_append]
    exact findChar_append_head pre (s2 ++ post) lbrace hpre
  have hrfind : rfindChar (pre ++ body ++ post) rbrace
      = some (pre.length + body.dropLast.length) := by
    rw [rfindChar_append_of_none (pre ++ body) post rbrace
      (rfindChar_eq_none_of_not_mem post rbrace hpost)]
    conv =>
      lhs
      rw [← hs3, ← List.append_assoc]
    simpa using rfindChar_concat (pre ++ body.dropLast) rbrace
  unfold extractJson pyFind pyRfind
  rw [hfind, hrfind]
  simp only []
  rw [if_pos]
  · have ht1 : ((pre.length : Int)).toNat = pre.length := Int.toNat_natCast pre.length
    have ht2 : (((pre.length + body.dropLast.length : Nat) : Int) + 1).toNat
        = pre.length + body.dropLast.length + 1 := by omega
    rw [ht1, ht2]
    unfold pySlice
    have hd : (pre ++ body ++ post).drop pre.length = body ++ post := by
      rw [List.append_assoc]
      exact List.drop_left pre (body ++ post)
    rw [hd]
    have harg : pre.length + body.dropLast.length + 1 - pre.length = body.length := by
      omega
    rw [harg, List.take_left body post]
  · constructor
    · omega
    · omega

theorem extractJson_eq_none_no_open (content : List Char) (h : lbrace ∉ content) :
    extractJson content = none := by
  unfold extractJson pyFind
  rw [findChar_eq_none_of_not_mem content lbrace h]
  simp

theorem extractJson_eq_none_no_close (content : List Char) (h : rbrace ∉ content) :
    extractJson content = none := by
  unfold extractJson pyRfind
  rw [rfindChar_eq_none_of_not_mem content rbrace h]
  unfold pyFind
  cases hf : findChar content lbrace with
  | none => simp
  | some i =>
    simp only []
    rw [if_neg]
    rintro ⟨h1, h2⟩
    omega

theorem extractJson_eq_none_of_order (content : List Char)
    (h : pyRfind content rbrace < pyFind content lbrace) :
    extractJson content = none := by
  unfold extractJson
  rw [if_neg]
  rintro ⟨h1, h2⟩
  omega

theorem intercalate_cons_two (sep x y : List Char) (ys : List (List Char)) :
    List.intercalate sep (x :: y :: ys) = x ++ sep ++ List.intercalate sep (y :: ys) := by
  simp [List.intercalate, List.intersperse, List.append_assoc]

theorem joinSep_eq_intercalate (sep : List Char) (l : List (List Char)) :
    joinSep sep l = List.intercalate sep l := by
  induction l with
  | nil => simp [joinSep, List.intercalate]
  | cons x xs ih =>
    cases xs with
    | nil => simp [joinSep, List.intercalate]
    | cons y ys =>
      show x ++ sep ++ joinSep sep (y :: ys) = _
      rw [ih, intercalate_cons_two]

theorem titleCond_ne_nil (e : List Char) : titleCond e ≠ [] := by
  unfold titleCond
  intro h
  have h2 := (List.append_eq_nil.mp h).2
  exact List.cons_ne_nil _ _ h2

theorem joinSep_ne_nil_of_head_ne_nil (sep x : List Char) (xs : List (List Char))
    (hx : x ≠ []) : joinSep sep (x :: xs) ≠ [] := by
  cases xs with
  | nil => simpa [joinSep] using hx
  | cons y ys =>
    show x ++ sep ++ joinSep sep (y :: ys) ≠ []
    intro h
    exact hx (List.append_eq_nil.mp ((List.append_eq_nil.mp h).1)).1

theorem conditions_eq_map_flattened (sg : PlaylistSuggestion) :
    sg.selected_movies.map (fun title => titleCond (escapeQuotes (cleanMovieTitle title)))
      ++ sg.selected_shows.map (fun title => titleCond (escapeQuotes title))
      ++ sg.selected_anime.map (fun title => titleCond (escapeQuotes title))
      = (flattenedTitles sg).map (fun t => titleCond (escapeQuotes t)) := by
  unfold flattenedTitles
  simp [List.map_append, List.map_map, Function.comp]

theorem create_query_eq_joinSep (sg : PlaylistSuggestion) :
    create_smart_collection_query sg
      = joinSep orSep ((flattenedTitles sg).map (fun t => titleCond (escapeQuotes t))) := by
  unfold create_smart_collection_query
  rw [conditions_eq_map_flattened]
  by_cases h : (flattenedTitles sg).map (fun t => titleCond (escapeQuotes t)) = []
  · rw [if_pos h, h]
    rfl
  · rw [if_neg h]

theorem query_eq_nil_iff_flattened (sg : PlaylistSuggestion) :
    create_smart_collection_query sg = [] ↔ flattenedTitles sg = [] := by
  rw [create_query_eq_joinSep]
  cases hft : flattenedTitles sg with
  | nil => simp [joinSep]
  | cons x xs =>
    simp only [List.map_cons]
    constructor
    · intro h
      exact absurd h (joinSep_ne_nil_of_head_ne_nil orSep _ _ (titleCond_ne_nil _))
    · intro h
      cases h

theorem flattened_eq_nil_iff (sg : PlaylistSuggestion) :
    flattenedTitles sg = [] ↔
      sg.selected_movies = [] ∧ sg.selected_shows = [] ∧ sg.selected_anime = [] := by
  unfold flattenedTitles
  simp [List.append_eq_nil, List.map_eq_nil_iff]

theorem isPre_self_append (s r : List Char) : isPre s (s ++ r) = true := by
  induction s with
  | nil => rfl
  | cons c cs ih => simp [isPre, ih]

theorem hasSub_of_isPre (sep s : List Char) (h : isPre sep s = true) :
    hasSub sep s = true := by
  cases s with
  | nil => exact h
  | cons c cs =>
    show (isPre sep (c :: cs) || hasSub sep cs) = true
    rw [h]
    rfl

theorem hasSub_middle (sep l1 l2 : List Char) :
    hasSub sep (l1 ++ (sep ++ l2)) = true := by
  induction l1 with
  | nil => exact hasSub_of_isPre _ _ (isPre_self_append sep l2)
  | cons c cs ih =>
    show (isPre sep (c :: (cs ++ (sep ++ l2))) || hasSub sep (cs ++ (sep ++ l2))) = true
    rw [ih]
    simp

theorem sepParen_eq : sepParen = [' ', '('] := rfl

theorem isPre_paren_extend (c : Char) (cs rest : List Char)
    (h : isPre [' ', '('] (c :: cs) = false) :
    isPre [' ', '('] (c :: (cs ++ ([' ', '('] ++ rest))) = false := by
  by_cases hc : c = ' '
  · cases cs with
    | nil =>
      subst hc
      simp only [List.nil_append, List.cons_append, isPre]
      decide
    | cons d ds =>
      by_cases hd : d = '('
      · subst hc
        subst hd
        simp [isPre] at h
      · have hdd : decide ('(' = d) = false := decide_eq_false (fun he => hd he.symm)
        simp only [List.cons_append, isPre]
        rw [hdd]
        simp
  · have hcc : decide (' ' = c) = false := decide_eq_false (fun he => hc he.symm)
    simp only [List.cons_append, isPre]
    rw [hcc]
    simp

theorem takeBefore_paren (pre rest : List Char)
    (hp : hasSub [' ', '('] pre = false) :
    takeBefore [' ', '('] (pre ++ ([' ', '('] ++ rest)) = pre := by
  induction pre with
  | nil =>
    have hc : isPre [' ', '('] (' ' :: '(' :: rest) = true := by
      have := isPre_self_append [' ', '('] rest
      simpa using this
    show takeBefore [' ', '('] (' ' :: '(' :: ([] ++ rest)) = []
    simp only [List.nil_append]
    unfold takeBefore
    rw [hc]
    simp
  | cons c cs ih =>
    have hsplit := Bool.or_eq_false_iff.mp hp
    have hcond : isPre [' ', '('] (c :: (cs ++ ([' ', '('] ++ rest))) = false :=
      isPre_paren_extend c cs rest hsplit.1
    show takeBefore [' ', '('] (c :: (cs ++ ([' ', '('] ++ rest))) = c :: cs
    unfold takeBefore
    rw [hcond]
    simp only [Bool.false_eq_true, if_false]
    rw [ih hsplit.2]

/-- The movie-title cleanup on a title whose first ` (` occurrence
follows `pre`: everything from that occurrence on is removed. -/
theorem cleanMovieTitle_strips_from_first_paren (pre rest : List Char)
    (hp : hasSub sepParen pre = false) :
    cleanMovieTitle (pre ++ sepParen ++ rest) = pre := by
  unfold cleanMovieTitle
  rw [List.append_assoc, hasSub_middle sepParen pre rest]
  simp only [if_true]
  rw [sepParen_eq] at hp ⊢
  exact takeBefore_paren pre rest hp

/-- `apply_playlist` on a suggestion with a non-empty flattened title
list and an unknown (truncated) name: one read, one create. -/
theorem apply_playlist_create (sg : PlaylistSuggestion) (wOk : Bool) (st : ETVState)
    (hq : create_smart_collection_query sg ≠ [])
    (hn : nameToId st.collections (sg.collection_name.take 50) = none) :
    apply_playlist sg wOk st =
      { ok := wOk
        state :=
          if wOk then
            { st with
              collections := st.collections ++
                [{ id := st.nextId, name := sg.collection_name.take 50,
                   query := create_smart_collection_query sg }]
              nextId := st.nextId + 1 }
          else st
        reads := 1
        writes := [RemoteWrite.create (sg.collection_name.take 50)
          (create_smart_collection_query sg)] } := by
  unfold apply_playlist
  rw [if_neg hq]
  simp only [hn]

/-- `apply_playlist` on a suggestion with a non-empty flattened title
list whose truncated name is already present: one read, one update. -/
theorem apply_playlist_update (sg : PlaylistSuggestion) (wOk : Bool) (st : ETVState)
    (cid : Int)
    (hq : create_smart_collection_query sg ≠ [])
    (hn : nameToId st.collections (sg.collection_name.take 50) = some cid) :
    apply_playlist sg wOk st =
      { ok := wOk
        state :=
          if wOk then
            { st with
              collections := st.collections.map
                (fun c => if c.id = cid then
                  { c with name := sg.collection_name.take 50,
                           query := create_smart_collection_query sg }
                  else c) }
          else st
        reads := 1
        writes := [RemoteWrite.update cid (sg.collection_name.take 50)
          (create_smart_collection_query sg)] } := by
  unfold apply_playlist
  rw [if_neg hq]
  simp only [hn]

/-- `apply_playlist` on a suggestion with an empty flattened title list:
no remote call at all. -/
theorem apply_playlist_noop (sg : PlaylistSuggestion) (wOk : Bool) (st : ETVState)
    (hq : create_smart_collection_query sg = []) :
    apply_playlist sg wOk st = { ok := false, state := st, reads := 0, writes := [] } := by
  unfold apply_playlist
  rw [if_pos hq]

theorem escapeQuotes_append (l1 l2 : List Char) :
    escapeQuotes (l1 ++ l2) = escapeQuotes l1 ++ escapeQuotes l2 := by
  induction l1 with
  | nil => rfl
  | cons c cs ih =>
    show (if c = '"' then '\\' :: '"' :: escapeQuotes (cs ++ l2) else c :: escapeQuotes (cs ++ l2))
        = (if c = '"' then '\\' :: '"' :: escapeQuotes cs else c :: escapeQuotes cs) ++ escapeQuotes l2
    by_cases hc : c = '"' <;> simp [hc, ih]

theorem optField_eq_none_iff {α : Type} (fields : List (List Char × Json))
    (key : List Char) (conv : Json → Option α) (dflt : α) :
    optField fields key conv dflt = none ↔
      ∃ v, dictGet fields key = some v ∧ conv v = none := by
  unfold optField
  cases hd : dictGet fields key with
  | none => simp
  | some v => simp

theorem validateSuggestion_obj_eq (fields : List (List Char × Json)) :
    validateSuggestion (Json.obj fields)
      = match reqField fields keyThemeName asStr, reqField fields keyCollectionName asStr,
          optField fields keyMovies asStrList [], optField fields keyShows asStrList [],
          optField fields keyAnime asStrList [], optField fields keyReasoning asStr [],
          optField fields keyRuntime asInt 0 with
        | some tn, some cn, some mv, some sh, some an, some rs, some rt =>
          some { theme_name := tn, collection_name := cn, selected_movies := mv,
                 selected_shows := sh, selected_anime := an, reasoning := rs,
                 estimated_runtime := rt }
        | _, _, _, _, _, _, _ => none := rfl

/-! ### Claim theorems -/

/-- C1 (amended): for raw model text `pre ++ body ++ post` where `body`
is a well-formed JSON object text, the preceding text contains no
opening brace and the following text contains no closing brace, the
extraction step of `generate_playlist` produces exactly the same
validated suggestion as decoding the embedded object directly. -/
theorem C1_slice_equals_direct_decode (th : ThemeConfig) (pre body post : List Char)
    (hbody : isJsonObjText body = true)
    (hpre : lbrace ∉ pre) (hpost : rbrace ∉ post) :
    generate_playlist th (InvokeOutcome.text (pre ++ body ++ post))
      = decodeSuggestion body := by
  unfold isJsonObjText at hbody
  simp only [Bool.and_eq_true, beq_iff_eq] at hbody
  obtain ⟨⟨_, hhead⟩, hlast⟩ := hbody
  have hex := extractJson_delimited pre body post hpre hpost hhead hlast
  show (match extractJson (pre ++ body ++ post) with
    | some json_str => decodeSuggestion json_str
    | none => none) = decodeSuggestion body
  rw [hex]

/-- C1 witness: a concrete benign decomposition. -/
theorem C1_slice_equals_direct_decode_witness :
    generate_playlist thAction (InvokeOutcome.text ("x".toList ++ c1obj ++ "y".toList))
      = decodeSuggestion c1obj :=
  C1_slice_equals_direct_decode thAction "x".toList c1obj "y".toList
    (by decide) (by decide) (by decide)

/-- C1 counterexample: `c1raw` contains exactly one well-formed JSON
object (`c1obj`), surrounded by other text, yet the slicing parser
returns no suggestion while decoding the embedded object directly
yields one. -/
theorem C1_counterexample :
    c1raw = "a\x7b".toList ++ c1obj ++ [] ∧
    isJsonObjText c1obj = true ∧
    objSubstringCount c1raw = 1 ∧
    decodeSuggestion c1obj
      = some { theme_name := "t".toList, collection_name := "c".toList,
               selected_movies := [], selected_shows := [], selected_anime := [],
               reasoning := [], estimated_runtime := 0 } ∧
    generate_playlist thAction (InvokeOutcome.text c1raw) = none := by
  exact ⟨by decide, by decide, by decide, by decide, by decide⟩

/-- C2: a raising model invocation, a non-string response content, an
absent or inverted brace pair, a malformed sliced substring, and a
substring failing shape validation all make `generate_playlist` return
`none`; as a total function of the invocation outcome it propagates no
exception. -/
theorem C2_failures_yield_none (th : ThemeConfig) (content : List Char) :
    generate_playlist th InvokeOutcome.raises = none ∧
    generate_playlist th InvokeOutcome.nonText = none ∧
    ((lbrace ∉ content ∨ rbrace ∉ content ∨
        pyRfind content rbrace < pyFind content lbrace) →
      generate_playlist th (InvokeOutcome.text content) = none) ∧
    (∀ js, extractJson content = some js → parseJsonText js = none →
      generate_playlist th (InvokeOutcome.text content) = none) ∧
    (∀ js v, extractJson content = some js → parseJsonText js = some v →
      validateSuggestion v = none →
      generate_playlist th (InvokeOutcome.text content) = none) := by
  refine ⟨rfl, rfl, ?_, ?_, ?_⟩
  · intro h
    have hex : extractJson content = none := by
      rcases h with h | h | h
      · exact extractJson_eq_none_no_open content h
      · exact extractJson_eq_none_no_close content h
      · exact extractJson_eq_none_of_order content h
    show (match extractJson content with
      | some json_str => decodeSuggestion json_str
      | none => none) = none
    rw [hex]
  · intro js h1 h2
    show (match extractJson content with
      | some json_str => decodeSuggestion json_str
      | none => none) = none
    rw [h1]
    show (parseJsonText js).bind validateSuggestion = none
    rw [h2]
    rfl
  · intro js v h1 h2 h3
    show (match extractJson content with
      | some json_str => decodeSuggestion json_str
      | none => none) = none
    rw [h1]
    show (parseJsonText js).bind validateSuggestion = none
    rw [h2]
    exact h3

/-- C2 witness: text with no brace pair yields no suggestion. -/
theorem C2_failures_yield_none_witness :
    generate_playlist thAction (InvokeOutcome.text "no structured payload".toList) = none :=
  (C2_failures_yield_none thAction "no structured payload".toList).2.2.1 (Or.inl (by decide))

/-- C3: reconciling a suggestion with a non-empty flattened title list
twice against an initially-empty remote collection set issues exactly
one create on the first call and exactly one update (keyed by the id
found under the truncated name) on the second call — never two
creates. -/
theorem C3_twice_create_then_update (sg : PlaylistSuggestion)
    (h : flattenedTitles sg ≠ []) :
    (apply_playlist sg true emptyETV).writes
      = [RemoteWrite.create (sg.collection_name.take 50)
          (create_smart_collection_query sg)] ∧
    (apply_playlist sg true (apply_playlist sg true emptyETV).state).writes
      = [RemoteWrite.update 0 (sg.collection_name.take 50)
          (create_smart_collection_query sg)] := by
  have hq : create_smart_collection_query sg ≠ [] := fun hz =>
    h ((query_eq_nil_iff_flattened sg).mp hz)
  have hn1 : nameToId emptyETV.collections (sg.collection_name.take 50) = none := rfl
  have h1 := apply_playlist_create sg true emptyETV hq hn1
  constructor
  · rw [h1]
  · have hstate : (apply_playlist sg true emptyETV).state
        = { collections := [⟨0, sg.collection_name.take 50,
              create_smart_collection_query sg⟩], nextId := 1 } := by
      rw [h1]
      rfl
    have hn2 : nameToId ({ collections := [⟨0, sg.collection_name.take 50,
          create_smart_collection_query sg⟩], nextId := 1 } : ETVState).collections
        (sg.collection_name.take 50) = some 0 := by
      simp [nameToId]
    rw [hstate, apply_playlist_update sg true _ 0 hq hn2]

/-- C3 witness: the two calls on a one-movie suggestion. -/
theorem C3_twice_create_then_update_witness :
    (apply_playlist c3sg true emptyETV).writes
      = [RemoteWrite.create (c3sg.collection_name.take 50)
          (create_smart_collection_query c3sg)] ∧
    (apply_playlist c3sg true (apply_playlist c3sg true emptyETV).state).writes
      = [RemoteWrite.update 0 (c3sg.collection_name.take 50)
          (create_smart_collection_query c3sg)] :=
  C3_twice_create_then_update c3sg (by decide)

/-- C4 counterexample: the scenario response text is well-formed JSON,
but it omits the required `theme_name` field, so `generate_playlist`
yields no suggestion and no reconciliation call is made. -/
theorem C4_counterexample :
    isJsonObjText c4text = true ∧
    generate_playlist thAction (InvokeOutcome.text c4text) = none := by
  exact ⟨by decide, by decide⟩

/-- C4 (amended): with the required `theme_name` also present, the
scenario response validates to the expected suggestion, and reconciling
it against an empty remote collection set issues exactly one create of
a collection named `Action Night` whose query payload references
`Mad Max` (year stripped). -/
theorem C4_end_to_end :
    generate_playlist thAction (InvokeOutcome.text c4textFull) = some c4suggestion ∧
    (apply_playlist c4suggestion true emptyETV).writes
      = [RemoteWrite.create "Action Night".toList "title contains \"Mad Max\"".toList] ∧
    (apply_playlist c4suggestion true emptyETV).ok = true := by
  exact ⟨by decide, by decide, by decide⟩

/-- C5 counterexample: a syntactically valid JSON object that omits the
`collection_name` field fails validation — omission of that field is an
error, because it has no default. -/
theorem C5_counterexample :
    isJsonObjText c5text = true ∧
    decodeSuggestion c5text = none := by
  exact ⟨by decide, by decide⟩

/-- C5 (amended): over every decoded JSON object — arbitrary fields,
in any combination — omitting `theme_name` or `collection_name` is a
validation error; on every successful validation each omitted defaulted
field got its default (empty title lists, empty reasoning, zero
runtime); any object carrying the two required fields as strings
validates with the defaults when the five defaulted fields are omitted,
whatever extra keys it populates; a validation failure is never caused
by an absent defaulted field (only by a missing or ill-typed required
field or an ill-typed present field); and malformed JSON or a
non-object shape is a parse failure. -/
theorem C5_optional_defaults :
    (∀ fields, dictGet fields keyThemeName = none →
        validateSuggestion (Json.obj fields) = none) ∧
    (∀ fields, dictGet fields keyCollectionName = none →
        validateSuggestion (Json.obj fields) = none) ∧
    (∀ fields sg, validateSuggestion (Json.obj fields) = some sg →
        (dictGet fields keyMovies = none → sg.selected_movies = []) ∧
        (dictGet fields keyShows = none → sg.selected_shows = []) ∧
        (dictGet fields keyAnime = none → sg.selected_anime = []) ∧
        (dictGet fields keyReasoning = none → sg.reasoning = []) ∧
        (dictGet fields keyRuntime = none → sg.estimated_runtime = 0)) ∧
    (∀ fields a b, dictGet fields keyThemeName = some (Json.str a) →
        dictGet fields keyCollectionName = some (Json.str b) →
        dictGet fields keyMovies = none → dictGet fields keyShows = none →
        dictGet fields keyAnime = none → dictGet fields keyReasoning = none →
        dictGet fields keyRuntime = none →
        validateSuggestion (Json.obj fields)
          = some { theme_name := a, collection_name := b, selected_movies := [],
                   selected_shows := [], selected_anime := [], reasoning := [],
                   estimated_runtime := 0 }) ∧
    (∀ fields, validateSuggestion (Json.obj fields) = none →
        reqField fields keyThemeName asStr = none ∨
        reqField fields keyCollectionName asStr = none ∨
        (∃ v, dictGet fields keyMovies = some v ∧ asStrList v = none) ∨
        (∃ v, dictGet fields keyShows = some v ∧ asStrList v = none) ∨
        (∃ v, dictGet fields keyAnime = some v ∧ asStrList v = none) ∨
        (∃ v, dictGet fields keyReasoning = some v ∧ asStr v = none) ∨
        (∃ v, dictGet fields keyRuntime = some v ∧ asInt v = none)) ∧
    (∀ js, parseJsonText js = none → decodeSuggestion js = none) ∧
    (∀ v : Json, (∀ fields, v ≠ Json.obj fields) → validateSuggestion v = none) := by
  refine ⟨?_, ?_, ?_, ?_, ?_, ?_, ?_⟩
  · intro fields h
    have hr : reqField fields keyThemeName asStr = none := by
      unfold reqField
      rw [h]
      rfl
    rw [validateSuggestion_obj_eq, hr]
  · intro fields h
    have hr : reqField fields keyCollectionName asStr = none := by
      unfold reqField
      rw [h]
      rfl
    rw [validateSuggestion_obj_eq, hr]
    cases hx1 : reqField fields keyThemeName asStr <;> rfl
  · intro fields sg hsg
    rw [validateSuggestion_obj_eq] at hsg
    cases hx1 : reqField fields keyThemeName asStr with
    | none =>
      rw [hx1] at hsg
      exact Option.noConfusion hsg
    | some tn =>
    rw [hx1] at hsg
    cases hx2 : reqField fields keyCollectionName asStr with
    | none =>
      rw [hx2] at hsg
      exact Option.noConfusion hsg
    | some cn =>
    rw [hx2] at hsg
    cases hx3 : optField fields keyMovies asStrList [] with
    | none =>
      rw [hx3] at hsg
      exact Option.noConfusion hsg
    | some mv =>
    rw [hx3] at hsg
    cases hx4 : optField fields keyShows asStrList [] with
    | none =>
      rw [hx4] at hsg
      exact Option.noConfusion hsg
    | some sh =>
    rw [hx4] at hsg
    cases hx5 : optField fields keyAnime asStrList [] with
    | none =>
      rw [hx5] at hsg
      exact Option.noConfusion hsg
    | some an =>
    rw [hx5] at hsg
    cases hx6 : optField fields keyReasoning asStr [] with
    | none =>
      rw [hx6] at hsg
      exact Option.noConfusion hsg
    | some rs =>
    rw [hx6] at hsg
    cases hx7 : optField fields keyRuntime asInt 0 with
    | none =>
      rw [hx7] at hsg
      exact Option.noConfusion hsg
    | some rt =>
    rw [hx7] at hsg
    have hs : (⟨tn, cn, mv, sh, an, rs, rt⟩ : PlaylistSuggestion) = sg :=
      Option.some.inj hsg
    subst hs
    refine ⟨?_, ?_, ?_, ?_, ?_⟩
    · intro habs
      unfold optField at hx3
      rw [habs] at hx3
      exact (Option.some.inj hx3).symm
    · intro habs
      unfold optField at hx4
      rw [habs] at hx4
      exact (Option.some.inj hx4).symm
    · intro habs
      unfold optField at hx5
      rw [habs] at hx5
      exact (Option.some.inj hx5).symm
    · intro habs
      unfold optField at hx6
      rw [habs] at hx6
      exact (Option.some.inj hx6).symm
    · intro habs
      unfold optField at hx7
      rw [habs] at hx7
      exact (Option.some.inj hx7).symm
  · intro fields a b h1 h2 h3 h4 h5 h6 h7
    have hr1 : reqField fields keyThemeName asStr = some a := by
      unfold reqField
      rw [h1]
      rfl
    have hr2 : reqField fields keyCollectionName asStr = some b := by
      unfold reqField
      rw [h2]
      rfl
    have ho3 : optField fields keyMovies asStrList ([] : List (List Char)) = some [] := by
      unfold optField
      rw [h3]
    have ho4 : optField fields keyShows asStrList ([] : List (List Char)) = some [] := by
      unfold optField
      rw [h4]
    have ho5 : optField fields keyAnime asStrList ([] : List (List Char)) = some [] := by
      unfold optField
      rw [h5]
    have ho6 : optField fields keyReasoning asStr ([] : List Char) = some [] := by
      unfold optField
      rw [h6]
    have ho7 : optField fields keyRuntime asInt (0 : Int) = some 0 := by
      unfold optField
      rw [h7]
    rw [validateSuggestion_obj_eq, hr1, hr2, ho3, ho4, ho5, ho6, ho7]
  · intro fields h
    rw [validateSuggestion_obj_eq] at h
    cases hx1 : reqField fields keyThemeName asStr with
    | none => exact Or.inl rfl
    | some tn =>
    rw [hx1] at h
    cases hx2 : reqField fields keyCollectionName asStr with
    | none => exact Or.inr (Or.inl rfl)
    | some cn =>
    rw [hx2] at h
    cases hx3 : optField fields keyMovies asStrList [] with
    | none =>
      exact Or.inr (Or.inr (Or.inl
        ((optField_eq_none_iff fields keyMovies asStrList []).mp hx3)))
    | some mv =>
    rw [hx3] at h
    cases hx4 : optField fields keyShows asStrList [] with
    | none =>
      exact Or.inr (Or.inr (Or.inr (Or.inl
        ((optField_eq_none_iff fields keyShows asStrList []).mp hx4))))
    | some sh =>
    rw [hx4] at h
    cases hx5 : optField fields keyAnime asStrList [] with
    | none =>
      exact Or.inr (Or.inr (Or.inr (Or.inr (Or.inl
        ((optField_eq_none_iff fields keyAnime asStrList []).mp hx5)))))
    | some an =>
    rw [hx5] at h
    cases hx6 : optField fields keyReasoning asStr [] with
    | none =>
      exact Or.inr (Or.inr (Or.inr (Or.inr (Or.inr (Or.inl
        ((optField_eq_none_iff fields keyReasoning asStr []).mp hx6))))))
    | some rs =>
    rw [hx6] at h
    cases hx7 : optField fields keyRuntime asInt 0 with
    | none =>
      exact Or.inr (Or.inr (Or.inr (Or.inr (Or.inr (Or.inr
        ((optField_eq_none_iff fields keyRuntime asInt 0).mp hx7))))))
    | some rt =>
    rw [hx7] at h
    exact Option.noConfusion h
  · intro js hjs
    unfold decodeSuggestion
    rw [hjs]
    rfl
  · intro v hv
    cases v with
    | obj fields => exact absurd rfl (hv fields)
    | null => rfl
    | bool b2 => rfl
    | num n => rfl
    | str s => rfl
    | arr xs => rfl

/-- C5 witness: omission of each required field errors at a concrete
object; an object with both required fields, an unknown extra key and
all defaulted fields omitted validates to the defaults; an object
populating one title list while omitting the others gets their
defaults; a malformed text and a non-object value fail. -/
theorem C5_optional_defaults_witness :
    validateSuggestion (Json.obj [(keyCollectionName, Json.str "c".toList)]) = none ∧
    validateSuggestion (Json.obj [(keyThemeName, Json.str "t".toList)]) = none ∧
    validateSuggestion (Json.obj c5extraFields)
      = some { theme_name := "t".toList, collection_name := "c".toList,
               selected_movies := [], selected_shows := [], selected_anime := [],
               reasoning := [], estimated_runtime := 0 } ∧
    c5partialSg.selected_shows = [] ∧
    c5partialSg.reasoning = [] ∧
    c5partialSg.estimated_runtime = 0 ∧
    decodeSuggestion "plain text".toList = none ∧
    validateSuggestion (Json.arr []) = none :=
  ⟨C5_optional_defaults.1 [(keyCollectionName, Json.str "c".toList)] (by rfl),
   C5_optional_defaults.2.1 [(keyThemeName, Json.str "t".toList)] (by rfl),
   C5_optional_defaults.2.2.2.1 c5extraFields "t".toList "c".toList
     (by rfl) (by rfl) (by rfl) (by rfl) (by rfl) (by rfl) (by rfl),
   (C5_optional_defaults.2.2.1 c5partialFields c5partialSg (by rfl)).2.1 (by rfl),
   (C5_optional_defaults.2.2.1 c5partialFields c5partialSg (by rfl)).2.2.2.1 (by rfl),
   (C5_optional_defaults.2.2.1 c5partialFields c5partialSg (by rfl)).2.2.2.2 (by rfl),
   C5_optional_defaults.2.2.2.2.2.1 "plain text".toList (by rfl),
   C5_optional_defaults.2.2.2.2.2.2 (Json.arr []) (fun fields h => Json.noConfusion h)⟩

/-- C6: the query is the " OR "-join of one escaped `title contains`
clause per flattened title — movies (cleaned of everything from the
first ` (`) first, then shows, then anime, in order — it is empty
exactly when all three lists are empty, and each embedded double quote
in a title is escaped with a backslash. -/
theorem C6_query_or_join (sg : PlaylistSuggestion) :
    create_smart_collection_query sg
      = List.intercalate orSep
          ((flattenedTitles sg).map (fun t => titleCond (escapeQuotes t))) ∧
    (create_smart_collection_query sg = [] ↔
      sg.selected_movies = [] ∧ sg.selected_shows = [] ∧ sg.selected_anime = []) ∧
    (∀ t1 t2 : List Char,
      escapeQuotes (t1 ++ '"' :: t2) = escapeQuotes t1 ++ '\\' :: '"' :: escapeQuotes t2) := by
  refine ⟨?_, ?_, ?_⟩
  · rw [create_query_eq_joinSep, joinSep_eq_intercalate]
  · rw [query_eq_nil_iff_flattened, flattened_eq_nil_iff]
  · intro t1 t2
    rw [escapeQuotes_append]
    show escapeQuotes t1 ++ (if ('"' : Char) = '"' then '\\' :: '"' :: escapeQuotes t2
      else '"' :: escapeQuotes t2) = _
    rw [if_pos rfl]

/-- C7: when the suggested collection name exceeds 50 characters, every
remote write issued by `apply_playlist` carries exactly the first 50
characters of it, the same truncated name keys the existence lookup that
decides create against update, and the generation-preview output still
displays the untruncated name. -/
theorem C7_truncation (sg : PlaylistSuggestion) (wOk : Bool) (st : ETVState)
    (h50 : 50 < sg.collection_name.length)
    (hts : flattenedTitles sg ≠ []) :
    (∀ w ∈ (apply_playlist sg wOk st).writes,
        writeName w = sg.collection_name.take 50) ∧
    (apply_playlist sg wOk st).writes.length = 1 ∧
    (sg.collection_name.take 50).length = 50 ∧
    (nameToId st.collections (sg.collection_name.take 50) = none →
      (apply_playlist sg wOk st).writes
        = [RemoteWrite.create (sg.collection_name.take 50)
            (create_smart_collection_query sg)]) ∧
    (∀ cid, nameToId st.collections (sg.collection_name.take 50) = some cid →
      (apply_playlist sg wOk st).writes
        = [RemoteWrite.update cid (sg.collection_name.take 50)
            (create_smart_collection_query sg)]) ∧
    (print_suggestion sg).head?
      = some ("[bold blue]Custom Show:[/bold blue] ".toList ++ sg.collection_name) := by
  have hq : create_smart_collection_query sg ≠ [] := fun hz =>
    hts ((query_eq_nil_iff_flattened sg).mp hz)
  have hlen : (sg.collection_name.take 50).length = 50 := by
    rw [List.length_take]
    omega
  cases hn : nameToId st.collections (sg.collection_name.take 50) with
  | none =>
    have ha := apply_playlist_create sg wOk st hq hn
    refine ⟨?_, ?_, hlen, ?_, ?_, rfl⟩
    · intro w hw
      rw [ha] at hw
      rw [List.mem_singleton.mp hw]
      rfl
    · rw [ha]
      rfl
    · intro _
      rw [ha]
    · intro cid hcid
      exact Option.noConfusion hcid
  | some cid0 =>
    have ha := apply_playlist_update sg wOk st cid0 hq hn
    refine ⟨?_, ?_, hlen, ?_, ?_, rfl⟩
    · intro w hw
      rw [ha] at hw
      rw [List.mem_singleton.mp hw]
      rfl
    · rw [ha]
      rfl
    · intro hnone
      exact Option.noConfusion hnone
    · intro cid hcid
      have hcc : cid0 = cid := Option.some.inj hcid
      rw [ha, hcc]

/-- C7 witness: a 62-character collection name. -/
theorem C7_truncation_witness :
    (∀ w ∈ (apply_playlist c7sg true emptyETV).writes,
        writeName w = c7sg.collection_name.take 50) ∧
    (apply_playlist c7sg true emptyETV).writes.length = 1 ∧
    (c7sg.collection_name.take 50).length = 50 ∧
    (nameToId emptyETV.collections (c7sg.collection_name.take 50) = none →
      (apply_playlist c7sg true emptyETV).writes
        = [RemoteWrite.create (c7sg.collection_name.take 50)
            (create_smart_collection_query c7sg)]) ∧
    (∀ cid, nameToId emptyETV.collections (c7sg.collection_name.take 50) = some cid →
      (apply_playlist c7sg true emptyETV).writes
        = [RemoteWrite.update cid (c7sg.collection_name.take 50)
            (create_smart_collection_query c7sg)]) ∧
    (print_suggestion c7sg).head?
      = some ("[bold blue]Custom Show:[/bold blue] ".toList ++ c7sg.collection_name) :=
  C7_truncation c7sg true emptyETV (by decide) (by decide)

theorem generate_and_apply_theme (t : ThemeConfig) (o : InvokeOutcome) (w : Bool)
    (st : ETVState) : (generate_and_apply t o w st).1.theme = t.name := by
  unfold generate_and_apply
  cases generate_playlist t o <;> rfl

theorem generate_and_apply_success (t : ThemeConfig) (o : InvokeOutcome) (w : Bool)
    (st : ETVState) :
    (generate_and_apply t o w st).1.success
      = ((generate_and_apply t o w st).1.suggestion.isSome
          && (generate_and_apply t o w st).1.applied) := by
  unfold generate_and_apply
  cases generate_playlist t o with
  | none => rfl
  | some sg => simp

/-- C8: the all-themes flow is a total function of the per-theme
outcomes — no exception crosses a per-theme boundary — it produces one
result record per configured theme in configuration order whatever each
theme's outcome is, and each record's success flag is true exactly when
a suggestion was generated and applied for that theme. -/
theorem C8_per_theme_isolation (inputs : List (ThemeConfig × InvokeOutcome × Bool))
    (st : ETVState) :
    (generate_all_themes inputs st).1.map (fun r => r.theme)
      = inputs.map (fun p => p.1.name) ∧
    ∀ r ∈ (generate_all_themes inputs st).1,
      r.success = (r.suggestion.isSome && r.applied) := by
  induction inputs generalizing st with
  | nil => exact ⟨rfl, by intro r hr; cases hr⟩
  | cons p rest ih =>
    obtain ⟨t, o, w⟩ := p
    have hrec := ih (generate_and_apply t o w st).2
    constructor
    · show ((generate_and_apply t o w st).1
          :: (generate_all_themes rest (generate_and_apply t o w st).2).1).map (fun r => r.theme)
        = t.name :: rest.map (fun p2 => p2.1.name)
      rw [List.map_cons, generate_and_apply_theme, hrec.1]
    · intro r hr
      have hr2 : r = (generate_and_apply t o w st).1
          ∨ r ∈ (generate_all_themes rest (generate_and_apply t o w st).2).1 :=
        List.mem_cons.mp hr
      rcases hr2 with h | h
      · rw [h]
        exact generate_and_apply_success t o w st
      · exact hrec.2 r h

/-- C8 witness: a batch with one failing theme still yields its ordered
record, whose success flag is false with no suggestion. -/
theorem C8_per_theme_isolation_witness :
    (generate_all_themes c8inputs emptyETV).1.map (fun r => r.theme)
      = c8inputs.map (fun p => p.1.name) ∧
    c8record.success = (c8record.suggestion.isSome && c8record.applied) :=
  ⟨(C8_per_theme_isolation c8inputs emptyETV).1,
   (C8_per_theme_isolation c8inputs emptyETV).2 c8record (by decide)⟩

/-- C9 counterexample: a suggestion whose flattened title list is empty
makes `apply_playlist` return before the list-collections call, so a
call can perform zero remote reads — the claim's "exactly one remote
read regardless of the suggestion's contents" is false. -/
theorem C9_counterexample :
    ¬ (∀ (sg : PlaylistSuggestion) (wOk : Bool) (st : ETVState),
        (apply_playlist sg wOk st).reads = 1) := by
  intro hall
  exact absurd (hall c9sg true emptyETV) (by decide)

/-- C9 (amended): every `apply_playlist` call performs at most one
remote read and at most one remote write, and it performs the read
exactly when the flattened title list is non-empty (otherwise it skips
the remote service entirely). -/
theorem C9_effect_bounds (sg : PlaylistSuggestion) (wOk : Bool) (st : ETVState) :
    (apply_playlist sg wOk st).reads ≤ 1 ∧
    (apply_playlist sg wOk st).writes.length ≤ 1 ∧
    ((apply_playlist sg wOk st).reads = 1 ↔ flattenedTitles sg ≠ []) := by
  by_cases hq : create_smart_collection_query sg = []
  · have hf : flattenedTitles sg = [] := (query_eq_nil_iff_flattened sg).mp hq
    rw [apply_playlist_noop sg wOk st hq]
    refine ⟨by norm_num, by norm_num, ?_⟩
    simp [hf]
  · have hf : flattenedTitles sg ≠ [] := fun hz =>
      hq ((query_eq_nil_iff_flattened sg).mpr hz)
    cases hn : nameToId st.collections (sg.collection_name.take 50) with
    | none =>
      rw [apply_playlist_create sg wOk st hq hn]
      exact ⟨le_refl 1, by norm_num, by simp [hf]⟩
    | some cid =>
      rw [apply_playlist_update sg wOk st cid hq hn]
      exact ⟨le_refl 1, by norm_num, by simp [hf]⟩

/-- C10: the movie-title cleanup removes everything from the first
occurrence of ` (` to the end of the title — not only a trailing
parenthetical year — while titles in the show and anime lists reach the
query verbatim (escaped but never stripped). -/
theorem C10_strip_from_first_paren (pre rest t : List Char)
    (hp : hasSub sepParen pre = false) :
    cleanMovieTitle (pre ++ sepParen ++ rest) = pre ∧
    (∀ tn cn r2 : List Char, ∀ k : Int,
      create_smart_collection_query
        { theme_name := tn, collection_name := cn, selected_movies := [],
          selected_shows := [t], selected_anime := [], reasoning := r2,
          estimated_runtime := k } = titleCond (escapeQuotes t)) ∧
    (∀ tn cn r2 : List Char, ∀ k : Int,
      create_smart_collection_query
        { theme_name := tn, collection_name := cn, selected_movies := [],
          selected_shows := [], selected_anime := [t], reasoning := r2,
          estimated_runtime := k } = titleCond (escapeQuotes t)) := by
  refine ⟨cleanMovieTitle_strips_from_first_paren pre rest hp, ?_, ?_⟩
  · intro tn cn r2 k
    rfl
  · intro tn cn r2 k
    rfl

/-- C10 witness: the mid-title parenthetical example. -/
theorem C10_strip_from_first_paren_witness :
    cleanMovieTitle ("Shaun".toList ++ sepParen ++ "of the Dead) (2004)".toList)
      = "Shaun".toList ∧
    cleanMovieTitle "Shaun (of the Dead) (2004)".toList = "Shaun".toList :=
  ⟨(C10_strip_from_first_paren "Shaun".toList "of the Dead) (2004)".toList []
      (by decide)).1,
   by decide⟩
